import Mathlib

/-!
Verification of the DataM8 generator core (dm8gen): the entity index and
locator resolution engine of `Factory/Model.py` and the hierarchical type
mapping resolver of `Factory/TypeMappingEngine.py`, embedded shallowly.
Python lists become `List`, fallible operations become `Except`/`Option`,
file modification times become `Nat`, and the filesystem is an explicit
value describing which files exist and what they parse to.
-/

namespace DataM8

/-- Entry of the persisted index, as built by `Model.__get_index_entry`:
the dict `{"absPath", "name", "locator"}` with an optional `references`
list that full scans attach to core and curated entries only
(`Generated/Index.py`: `IndexEntry`). -/
structure IndexEntry where
  absPath : String
  name : String
  locator : String
  references : Option (List String) := none
deriving DecidableEq

/-- The four zone collections of the index document
(`Generated/Index.py`: `Model` with `rawIndex`/`stageIndex`/`coreIndex`/
`curatedIndex`, each wrapping an entry list). -/
structure Index where
  rawIndex : List IndexEntry
  stageIndex : List IndexEntry
  coreIndex : List IndexEntry
  curatedIndex : List IndexEntry
deriving DecidableEq

/-- All entries in the zone order of `Model.__get_index_items`:
raw, stage, core, curated. -/
def Index.allEntries (idx : Index) : List IndexEntry :=
  idx.rawIndex ++ idx.stageIndex ++ idx.coreIndex ++ idx.curatedIndex

/-- Embeds Python `str.lower()` for the locator strings compared by the
resolver; locators are ASCII and `Char.toLower` lowercases exactly the
ASCII uppercase letters. -/
def pyLower (s : String) : String :=
  String.mk (s.data.map Char.toLower)

/-- Embeds Python `str.startswith("/")` as used by `Model.lookup_entity`. -/
def pyStartsWithSlash (s : String) : Bool :=
  match s.data with
  | '/' :: _ => true
  | _ => false

/-- Matcher for the tail of the locator-shape regex of `Model.get_locator`,
`re.search(r"^\/+.+\/.+\/.+\/.+$", re.escape(regex))`.  `segScan n started cs`
decides whether `cs` matches `.+(\/.+){n}$` (for `started = false`): a group
of one or more non-newline characters, then `n` further slash-separated such
groups; `started = true` continues a group that already holds a character.
Following Python `re`, `.` does not match a newline and `$` also accepts a
position just before one trailing newline.  Group characters may themselves
be slashes, so both readings of an interior `/` are tried. -/
def segScan : Nat → Bool → List Char → Bool
  | n, started, [] => n == 0 && started
  | n, started, c :: rest =>
    if c == '\n' then
      n == 0 && started && rest.isEmpty
    else
      (match n with
       | m + 1 => c == '/' && started && segScan m false rest
       | 0 => false) || segScan n true rest

/-- Embeds the pattern validation of `Model.get_locator`:
`re.search(r"^\/+.+\/.+\/.+\/.+$", re.escape(regex))`.  For the pattern
strings considered here (letters, digits and slashes) `re.escape` is the
identity.  The anchored regex matches exactly when the string starts with a
slash and the remainder matches `.+(\/.+){3}$`: a longer run of leading
slashes is absorbed by the first `.+` group, so matching with `\/+` taken
as one slash is equivalent. -/
def validLocatorPattern (s : String) : Bool :=
  match s.data with
  | '/' :: rest => segScan 3 false rest
  | _ => false

/-- The typed failures of locator resolution
(`InvalidLocatorException`, `LocatorNotFoundException`,
`MultipleLocatorsFoundException` in `Factory/Model.py`). -/
inductive LocatorError where
  | invalidLocator
  | locatorNotFound
  | multipleLocatorsFound
deriving DecidableEq

/-- Embeds `Model.get_locator`: reject a pattern that fails the shape
regex, scan the four zone collections in order collecting every entry whose
locator, lower-cased, equals the lower-cased pattern (plain string equality:
the regex-match line in the source is commented out), then fail on zero
matches with `LocatorNotFound` and on more than one with
`MultipleLocatorsFound`, otherwise return the singleton list. -/
def get_locator (idx : Index) (regex : String) :
    Except LocatorError (List IndexEntry) :=
  if validLocatorPattern regex then
    let ls := idx.allEntries.filter
      (fun entry => pyLower regex == pyLower entry.locator)
    if ls.length == 0 then Except.error LocatorError.locatorNotFound
    else if ls.length != 1 then Except.error LocatorError.multipleLocatorsFound
    else Except.ok ls
  else Except.error LocatorError.invalidLocator

/-- Embeds `Model.lookup_entity`: prepend a slash when the input does not
start with one, resolve through `get_locator`, and return the first (only)
resolved entry. -/
def lookup_entity (idx : Index) (locator : String) :
    Except LocatorError IndexEntry :=
  let loc := if pyStartsWithSlash locator then locator else "/" ++ locator
  match get_locator idx loc with
  | Except.error e => Except.error e
  | Except.ok [] => Except.error LocatorError.locatorNotFound
  | Except.ok (e :: _) => Except.ok e

/-- Embeds the inner loop of `Model.__check_index_duplicates`: walk the
entries of all zones in order keeping the list `ls_locators` of locators
seen so far; the first entry whose locator is already in the list
(`i.locator in ls_locators`: plain, case-sensitive string equality) raises,
reported here as `some` of that locator. -/
def check_duplicates_go (seen : List String) : List IndexEntry → Option String
  | [] => none
  | i :: rest =>
    if seen.contains i.locator then some i.locator
    else check_duplicates_go (seen ++ [i.locator]) rest

/-- Embeds `Model.__check_index_duplicates` over the four zone collections
in the order of `Model.__get_index_items`. -/
def check_index_duplicates (idx : Index) : Option String :=
  check_duplicates_go [] idx.allEntries

/-- The fatal outcomes of `Model.validate_index` with a full scan:
`Model.ModelParseException` when the shared error list is non-empty, and
the `ValueError` of `__check_index_duplicates` (caught by the generic
handler, so the index is never written). -/
inductive BuildError where
  | modelParse
  | duplicateLocator
deriving DecidableEq

/-- Embeds the full-scan branch of `Model.validate_index`
(`full_index_scan=True`): after the four zone scans produced their entry
lists, raise `ModelParseException` when `self.errors` is non-empty, build
the index document, run the duplicate check, and only then write the file
(returning the written index). -/
def validate_index_full (errors : List String)
    (raw stage core curated : List IndexEntry) : Except BuildError Index :=
  if errors.isEmpty then
    match check_index_duplicates
        { rawIndex := raw, stageIndex := stage,
          coreIndex := core, curatedIndex := curated } with
    | some _ => Except.error BuildError.duplicateLocator
    | none => Except.ok
        { rawIndex := raw, stageIndex := stage,
          coreIndex := core, curatedIndex := curated }
  else Except.error BuildError.modelParse

/-- Embeds Python `list.remove(x)`: delete the first element equal to `x`
(structural equality of the pydantic entry objects). -/
def pyRemoveFirst (e : IndexEntry) : List IndexEntry → List IndexEntry
  | [] => []
  | x :: xs => if x = e then xs else x :: pyRemoveFirst e xs

/-- Embeds the prune loop of `Model.__get_clean_index_tuple` for one zone
collection, with CPython iterator semantics: the `for` loop keeps a cursor
`k` into the list; each step reads `lst[k]`, advances the cursor, and when
the entry's backing file is gone calls `lst.remove(i)`, which shifts the
remaining elements left under the advanced cursor (so the element directly
after a removed one is never visited).  Surviving entries append their
locator to the accumulator `locs` (`ls_locators.append`).  The loop runs at
most `lst.length - k` further steps because the cursor only advances and
the list never grows, so that quantity is passed as structural fuel; when
it reaches zero the loop condition `k < lst.length` is false as well and
both readings return `(lst, locs)`. -/
def pruneLoopFuel (alive : String → Bool) :
    Nat → Nat → List IndexEntry → List String →
    List IndexEntry × List String
  | 0, _, lst, locs => (lst, locs)
  | fuel + 1, k, lst, locs =>
    if h : k < lst.length then
      let i := lst.get ⟨k, h⟩
      if alive i.absPath then
        pruneLoopFuel alive fuel (k + 1) lst (locs ++ [i.locator])
      else
        pruneLoopFuel alive fuel (k + 1) (pyRemoveFirst i lst) locs
    else (lst, locs)

/-- The per-zone prune loop started at cursor 0 with exact fuel. -/
def pruneZone (alive : String → Bool) (lst : List IndexEntry)
    (locs : List String) : List IndexEntry × List String :=
  pruneLoopFuel alive lst.length 0 lst locs

/-- Embeds `Model.__get_clean_index_tuple`: prune each zone collection in
order, threading the single `ls_locators` accumulator through all four
zones, and return the cleaned index together with the surviving locators.
`alive` is `os.path.exists` on the entry's `absPath`. -/
def get_clean_index_tuple (alive : String → Bool) (idx : Index) :
    Index × List String :=
  let pr := pruneZone alive idx.rawIndex []
  let ps := pruneZone alive idx.stageIndex pr.2
  let pc := pruneZone alive idx.coreIndex ps.2
  let pu := pruneZone alive idx.curatedIndex pc.2
  ({ rawIndex := pr.1, stageIndex := ps.1,
     coreIndex := pc.1, curatedIndex := pu.1 }, pu.2)

/-- What `UnifiedEntityFactory` exposes for a parseable entity document:
the v1-schema flag of `Model.detect_v1_schema` and the four locator
components. -/
structure EntityDoc where
  isV1 : Bool
  entityLayer : String
  dataProduct : String
  dataModule : String
  entityName : String
deriving DecidableEq

/-- A file visited by `os.walk` during refresh: its absolute path, its
modification time, and its parse result (`none` when `Helper.read_json`
raises `JsonFileParseException`). -/
structure FileRec where
  absPath : String
  mtime : Nat
  doc : Option EntityDoc
deriving DecidableEq

/-- The filesystem seen by one refresh: the files under each zone path in
`os.walk` order.  A path exists on disk exactly when some listed file
carries it. -/
structure FileSystem where
  rawFiles : List FileRec
  stageFiles : List FileRec
  coreFiles : List FileRec
  curatedFiles : List FileRec

def FileSystem.allFiles (fs : FileSystem) : List FileRec :=
  fs.rawFiles ++ fs.stageFiles ++ fs.coreFiles ++ fs.curatedFiles

/-- Embeds `os.path.exists` against the modelled filesystem. -/
def FileSystem.alive (fs : FileSystem) (p : String) : Bool :=
  fs.allFiles.any (fun f => f.absPath == p)

/-- Embeds `Helper.get_locator`:
`f"/{entity_type}/{data_product}/{data_module}/{entity_name}"`. -/
def helper_get_locator (entityType dataProduct dataModule entityName : String) :
    String :=
  "/" ++ entityType ++ "/" ++ dataProduct ++ "/" ++ dataModule ++ "/" ++ entityName

/-- The locator computed for a parsed document in `__get_index_entry` and
`__get_refresh_index`: the call passes
`entity_type = unified_factory.entity_layer.lower()` and the remaining
fields unchanged. -/
def EntityDoc.locator (d : EntityDoc) : String :=
  helper_get_locator (pyLower d.entityLayer) d.dataProduct d.dataModule d.entityName

/-- Failure of a refresh: `Helper.read_json` raised on a file whose
modification time was newer than the index file (the refresh loop does not
catch it). -/
inductive RefreshError where
  | jsonParse
deriving DecidableEq

/-- Embeds the discovery walk of `Model.__get_refresh_index` for one zone:
for every file whose modification time is strictly newer than the index
file's, parse it (a parse failure propagates), skip v1-schema documents
with a warning, compute the locator, and append an entry only when the
locator is not in the pruned-survivor list `locs` — which is never extended
during discovery. -/
def discoverZone (idxMtime : Nat) (locs : List String) :
    List FileRec → List IndexEntry → Except RefreshError (List IndexEntry)
  | [], acc => Except.ok acc
  | f :: rest, acc =>
    if idxMtime < f.mtime then
      match f.doc with
      | none => Except.error RefreshError.jsonParse
      | some d =>
        if d.isV1 then discoverZone idxMtime locs rest acc
        else if locs.contains d.locator then discoverZone idxMtime locs rest acc
        else
          discoverZone idxMtime locs rest
            (acc ++ [{ absPath := f.absPath, name := d.entityName,
                       locator := d.locator, references := none }])
    else discoverZone idxMtime locs rest acc

/-- Embeds `Model.__get_refresh_index`: prune the stored index with
`__get_clean_index_tuple`, then discover newer files zone by zone against
the fixed survivor-locator list. -/
def get_refresh_index (fs : FileSystem) (idxMtime : Nat) (idx : Index) :
    Except RefreshError Index := do
  let cleaned := get_clean_index_tuple fs.alive idx
  let raw ← discoverZone idxMtime cleaned.2 fs.rawFiles cleaned.1.rawIndex
  let stage ← discoverZone idxMtime cleaned.2 fs.stageFiles cleaned.1.stageIndex
  let core ← discoverZone idxMtime cleaned.2 fs.coreFiles cleaned.1.coreIndex
  let curated ← discoverZone idxMtime cleaned.2 fs.curatedFiles cleaned.1.curatedIndex
  pure { rawIndex := raw, stageIndex := stage,
         coreIndex := core, curatedIndex := curated }

/-- The fatal outcomes of the refresh branch of `Model.validate_index`:
a propagated parse failure, or the duplicate-locator `ValueError`; either
way the index file is not rewritten. -/
inductive RefreshBuildError where
  | parseFailure
  | duplicateLocator
deriving DecidableEq

/-- Embeds the refresh branch of `Model.validate_index`
(`full_index_scan=False` with an existing index file): refresh, validate
duplicate locators, and only on success write the refreshed index. -/
def validate_index_refresh (fs : FileSystem) (idxMtime : Nat) (idx : Index) :
    Except RefreshBuildError Index :=
  match get_refresh_index fs idxMtime idx with
  | Except.error _ => Except.error RefreshBuildError.parseFailure
  | Except.ok r =>
    match check_index_duplicates r with
    | some _ => Except.error RefreshBuildError.duplicateLocator
    | none => Except.ok r

/-- One `(sourceType, targetType)` record of a `dataTypeMapping` list.
Modelled from the spec: the generated registry document models
(`Generated/DataSources.py`, `Generated/DataSourceTypes.py`) are not under
`src/`; the field names follow the spec's data model and the accesses in
`DataSourceFactory` and `DataSourceTypesFactory`. -/
structure TypeMappingEntry where
  sourceType : String
  targetType : String
deriving DecidableEq

/-- A registered data source: a named instance of a `DataSourceType` with
override mappings.  Modelled from the spec: the generated
`Generated/DataSources.py` item model is not under `src/`; fields follow
the spec's data model and the accesses in `DataSourceFactory` and
`TypeMappingEngine` (`name`, `type`, `dataTypeMapping`).  A source whose
document carries no override list behaves like an empty one: iterating it
raises, the blanket handler catches, and `""` is returned — the same
outcome as a zero-match list. -/
structure DataSource where
  name : String
  type : String
  dataTypeMapping : List TypeMappingEntry
deriving DecidableEq

/-- A data source kind with its default mapping list.  Modelled from the
spec: the generated `Generated/DataSourceTypes.py` item model is not under
`src/`; fields follow the spec's data model and the accesses in
`DataSourceTypesFactory` (`name`, `dataTypeMapping`). -/
structure DataSourceType where
  name : String
  dataTypeMapping : List TypeMappingEntry
deriving DecidableEq

/-- A canonical data type record of `Generated/DataTypes.py` (under
`src/`): `name` and `parquetType` are required strings; the capability
flags default to false. -/
structure DataType where
  name : String
  parquetType : String
  sqlType : String
  hasCharLen : Bool := false
  hasPrecision : Bool := false
  hasScale : Bool := false
deriving DecidableEq

/-- Embeds `DataSourceFactory.get_datasource`: the list comprehension
filtered by `name` indexed at `[0]`; the `IndexError` on an empty result is
caught by the handler and `None` is returned. -/
def get_datasource (sources : List DataSource) (sourceName : String) :
    Option DataSource :=
  (sources.filter (fun i => i.name == sourceName)).head?

/-- Embeds `DataSourceFactory.get_datasource_target_type` (the class-level
`OptimizedCache` only memoizes this pure computation and is omitted):
collect the `targetType` of every override whose `sourceType` equals the
token; one match returns it, zero matches return `""` with a warning, and
several matches return the first with a warning. -/
def get_datasource_target_type (sources : List DataSource)
    (sourceName sourceTypeToken : String) : String :=
  match get_datasource sources sourceName with
  | none => ""
  | some src =>
    match (src.dataTypeMapping.filter
        (fun m => m.sourceType == sourceTypeToken)).map
        (fun m => m.targetType) with
    | [] => ""
    | t :: _ => t

/-- Embeds `DataSourceTypesFactory.get_datasource_type`: the list
comprehension over `dataSourceTypes` filtered by `name` indexed at `[0]`;
the `IndexError` on an empty result is caught and `None` returned. -/
def get_datasource_type (types : List DataSourceType) (typeName : String) :
    Option DataSourceType :=
  (types.filter (fun i => i.name == typeName)).head?

/-- Embeds `DataSourceTypesFactory.get_default_type_mapping`: look the
data source type up and return the `targetType` of the first mapping whose
`sourceType` equals the token, or `None`. -/
def get_default_type_mapping (types : List DataSourceType)
    (typeName sourceTypeToken : String) : Option String :=
  match get_datasource_type types typeName with
  | none => none
  | some dst =>
    match dst.dataTypeMapping.filter
        (fun m => m.sourceType == sourceTypeToken) with
    | [] => none
    | m :: _ => some m.targetType

/-- Embeds `TypeMappingEngine._get_datasource_type_mapping`.  The Python
body invokes `self.data_source_types_factory.get_datasourcetype(...)`, but
`DataSourceTypesFactory` defines no method of that name (its lookup is
`get_datasource_type`), so the call raises `AttributeError` before any
mapping is consulted; the blanket `except Exception` catches it and the
method returns `None` on every input.  The fallback tier is dead code. -/
def tme_get_datasource_type_mapping (_types : List DataSourceType)
    (_sourceTypeName _sourceDataType : String) : Option String :=
  none

/-- Embeds `DataTypesFactory.get_data_type`: the list comprehension over
`items` filtered by `name` indexed at `[0]`; an empty result raises
`IndexError`, which the factory's handler turns into an error exit,
modelled as `none`. -/
def get_data_type (items : List DataType) (datatypeName : String) :
    Option DataType :=
  (items.filter (fun i => i.name == datatypeName)).head?

/-- Embeds `TypeMappingEngine._resolve_canonical_type`.  The Python body
invokes `self.data_types_factory.get_datatype(...)`, but `DataTypesFactory`
defines no method of that name (its lookup is `get_data_type`), so the
call raises `AttributeError` before the registry is consulted; the blanket
`except Exception` catches it and the input token is returned unchanged on
every input.  The canonicalization tier is dead code. -/
def tme_resolve_canonical_type (_dataTypes : List DataType)
    (targetType : String) : String :=
  targetType

/-- Modelled from the spec: the canonicalization step of
`resolve_type_mapping` as the spec and the engine's own docstring
("final canonical type resolution using parquetType field") describe it —
the resolved token is located in the DataType registry through its
`parquetType` alias (the lookup `DataTypesFactory.get_data_type_list`
offers with property key `parquetType`) and replaced by the found record's
canonical `name`; a token matching no record is returned unchanged.  The
shipped call site invokes a nonexistent method instead (see
`tme_resolve_canonical_type`), so the code never computes this. -/
def resolve_canonical_type_documented (dataTypes : List DataType)
    (targetType : String) : String :=
  match dataTypes.filter (fun i => i.parquetType == targetType) with
  | [] => targetType
  | dt :: _ => dt.name

/-- The resolved mapping record returned by
`TypeMappingEngine.resolve_type_mapping` (`DataTypeMapping` dataclass). -/
structure DataTypeMapping where
  source_type : String
  target_type : String
  nullable : Bool
  char_len : Option Nat := none
  precision : Option Nat := none
  scale : Option Nat := none
deriving DecidableEq

/-- The `ValueError`s raised by `TypeMappingEngine.resolve_type_mapping`:
an unknown data source name, or no mapping found after the fallback
chain. -/
inductive ResolveError where
  | dataSourceNotFound
  | unmappedSourceType
deriving DecidableEq

/-- Embeds `TypeMappingEngine.resolve_type_mapping`: look the data source
up (absent raises), try the source's own override mappings through
`get_datasource_target_type`, on a falsy result (`""`) fall back to
`_get_datasource_type_mapping` on the source's `type`, raise when the
result is still falsy (`None` or `""`), and finally canonicalize through
`_resolve_canonical_type`; nullability, length, precision and scale are
carried through unchanged. -/
def resolve_type_mapping (sources : List DataSource)
    (types : List DataSourceType) (dataTypes : List DataType)
    (sourceDataSourceName sourceTypeToken : String) (nullable : Bool)
    (charLen precision scale : Option Nat) :
    Except ResolveError DataTypeMapping :=
  match get_datasource sources sourceDataSourceName with
  | none => Except.error ResolveError.dataSourceNotFound
  | some ds =>
    let t1 := get_datasource_target_type sources sourceDataSourceName
      sourceTypeToken
    let t2 : Option String :=
      if t1 == "" then tme_get_datasource_type_mapping types ds.type
        sourceTypeToken
      else some t1
    match t2 with
    | none => Except.error ResolveError.unmappedSourceType
    | some t =>
      if t == "" then Except.error ResolveError.unmappedSourceType
      else Except.ok
        { source_type := sourceTypeToken,
          target_type := tme_resolve_canonical_type dataTypes t,
          nullable := nullable,
          char_len := charLen, precision := precision, scale := scale }

/-- The process-wide mutable state behind `Model.errors`: the class body of
`Model` declares `errors: list = []` once, and `__error_handler` appends to
it in place (`self.errors.append(e)`), never rebinding an instance
attribute — so every `Model` instance of the process reads and writes this
one list. -/
structure ProcessState where
  errors : List String

/-- A `Model` instance: only the identity matters here; its `errors`
attribute resolves to the shared class-level list. -/
structure ModelInstance where
  path_solution : String

/-- Embeds `Model.__error_handler` called on any instance: append to the
shared class-level list. -/
def ModelInstance.error_handler (_ : ModelInstance) (s : ProcessState)
    (e : String) : ProcessState :=
  { errors := s.errors ++ [e] }

/-- Embeds reading `self.errors` on any instance: attribute lookup finds
the class-level list, the same object for every instance. -/
def ModelInstance.errorsAttr (_ : ModelInstance) (s : ProcessState) :
    List String :=
  s.errors

/-! Concrete data for witnesses and counterexamples. -/

/-- A stage entry of the sample solution. -/
def productEntry : IndexEntry :=
  { absPath := "/solution/model/Staging/Sales/Product/Product.json",
    name := "Product", locator := "/stage/Sales/Product/Product" }

/-- A raw entry of the sample solution. -/
def customerEntry : IndexEntry :=
  { absPath := "/solution/model/Raw/Sales/Customer/Customer_DE.json",
    name := "Customer_DE", locator := "/raw/Sales/Customer/Customer_DE" }

/-- A two-entry index over the sample solution. -/
def sampleIndex : Index :=
  { rawIndex := [customerEntry], stageIndex := [productEntry],
    coreIndex := [], curatedIndex := [] }

/-- Raw entry whose locator collides with `caseVariantB` only up to
letter case. -/
def caseVariantA : IndexEntry :=
  { absPath := "/solution/model/Raw/Sales/Product/Product.json",
    name := "Product", locator := "/raw/Sales/Product/Product" }

/-- Raw entry whose locator collides with `caseVariantA` only up to
letter case. -/
def caseVariantB : IndexEntry :=
  { absPath := "/solution/model/Raw/Sales/Product/PRODUCT2.json",
    name := "product", locator := "/raw/sales/product/product" }

/-- Index entry whose backing file has been deleted. -/
def deadEntryA : IndexEntry :=
  { absPath := "/solution/model/Raw/Sales/Alpha/Alpha.json",
    name := "Alpha", locator := "/raw/Sales/Alpha/Alpha" }

/-- A second index entry whose backing file has been deleted, stored
directly after `deadEntryA`. -/
def deadEntryB : IndexEntry :=
  { absPath := "/solution/model/Raw/Sales/Beta/Beta.json",
    name := "Beta", locator := "/raw/Sales/Beta/Beta" }

/-- The filesystem after both backing files were deleted: no files under
any zone path. -/
def emptyFileSystem : FileSystem :=
  { rawFiles := [], stageFiles := [], coreFiles := [], curatedFiles := [] }

/-- A data source declaring an override mapping `varchar → string`. -/
def overrideSource : DataSource :=
  { name := "SalesDb", type := "SqlDataSource",
    dataTypeMapping := [{ sourceType := "varchar", targetType := "string" }] }

/-- A data source of type `SqlDataSource` with no override mappings. -/
def plainSource : DataSource :=
  { name := "OrdersDb", type := "SqlDataSource", dataTypeMapping := [] }

/-- The data source type with a default mapping `varchar → text`. -/
def sqlSourceType : DataSourceType :=
  { name := "SqlDataSource",
    dataTypeMapping := [{ sourceType := "varchar", targetType := "text" }] }

/-- The registry record `{name: "UnicodeString", parquetType: "string"}`. -/
def unicodeStringType : DataType :=
  { name := "UnicodeString", parquetType := "string",
    sqlType := "nvarchar(max)", hasCharLen := true }

/-! Helper lemmas. -/

theorem filter_locator_lower_eq (l : List IndexEntry) (e : IndexEntry)
    (he : e ∈ l)
    (hnd : (l.map (fun x => pyLower x.locator)).Nodup) :
    l.filter (fun x => pyLower e.locator == pyLower x.locator) = [e] := by
  induction l with
  | nil => cases he
  | cons a t ih =>
    rw [List.map_cons, List.nodup_cons] at hnd
    obtain ⟨hna, hnt⟩ := hnd
    rcases List.mem_cons.mp he with rfl | het
    · rw [List.filter_cons, if_pos (by simp)]
      have ht : t.filter (fun x => pyLower e.locator == pyLower x.locator)
          = [] := by
        refine List.filter_eq_nil_iff.mpr (fun x hx hbx => ?_)
        exact hna ((beq_iff_eq.mp hbx) ▸
          List.mem_map_of_mem (fun y => pyLower y.locator) hx)
      rw [ht]
    · have hne : (pyLower e.locator == pyLower a.locator) = false := by
        refine beq_eq_false_iff_ne.mpr (fun hEq => hna ?_)
        exact hEq ▸ List.mem_map_of_mem (fun y => pyLower y.locator) het
      rw [List.filter_cons, if_neg (by simp [hne])]
      exact ih het hnt

theorem get_locator_ok_of_mem (idx : Index) (e : IndexEntry)
    (he : e ∈ idx.allEntries)
    (hnd : (idx.allEntries.map (fun x => pyLower x.locator)).Nodup)
    (hv : validLocatorPattern e.locator = true) :
    get_locator idx e.locator = Except.ok [e] := by
  have hfil := filter_locator_lower_eq idx.allEntries e he hnd
  simp [get_locator, hv, hfil]

theorem get_locator_not_found_of_absent (idx : Index) (p : String)
    (hv : validLocatorPattern p = true)
    (hn : ∀ e ∈ idx.allEntries, pyLower p ≠ pyLower e.locator) :
    get_locator idx p = Except.error LocatorError.locatorNotFound := by
  have hfil : idx.allEntries.filter (fun x => pyLower p == pyLower x.locator)
      = [] := by
    refine List.filter_eq_nil_iff.mpr (fun x hx hbx => ?_)
    exact hn x hx (beq_iff_eq.mp hbx)
  simp [get_locator, hv, hfil]

theorem check_duplicates_go_eq_none (l : List IndexEntry)
    (seen : List String) :
    check_duplicates_go seen l = none ↔
      ((l.map IndexEntry.locator).Nodup ∧ ∀ x ∈ l, x.locator ∉ seen) := by
  induction l generalizing seen with
  | nil => simp [check_duplicates_go]
  | cons a t ih =>
    by_cases h : a.locator ∈ seen
    · have hc : seen.contains a.locator = true := List.elem_iff.mpr h
      simp only [check_duplicates_go, hc, if_pos]
      constructor
      · intro hfalse; cases hfalse
      · intro ⟨_, hall⟩
        exact absurd h (hall a (List.mem_cons_self a t))
    · have hc : seen.contains a.locator = false := by
        cases hcc : seen.contains a.locator with
        | true => exact absurd (List.elem_iff.mp hcc) h
        | false => rfl
      have hmemr : a.locator ∈ seen ++ [a.locator] :=
        List.mem_append_right seen (List.mem_singleton.mpr rfl)
      simp only [check_duplicates_go, hc, Bool.false_eq_true, if_neg,
        not_false_eq_true, ih]
      constructor
      · intro ⟨hnd, hall⟩
        refine ⟨List.nodup_cons.mpr ⟨fun hmem => ?_, hnd⟩, ?_⟩
        · obtain ⟨x, hx, hxl⟩ := List.mem_map.mp hmem
          exact (hall x hx) (hxl ▸ hmemr)
        · intro x hx
          rcases List.mem_cons.mp hx with rfl | hxt
          · exact h
          · intro hxs
            exact (hall x hxt) (List.mem_append_left [a.locator] hxs)
      · intro ⟨hnd, hall⟩
        rw [List.map_cons, List.nodup_cons] at hnd
        refine ⟨hnd.2, fun x hxt hxs => ?_⟩
        rcases List.mem_append.mp hxs with hxseen | hxa
        · exact (hall x (List.mem_cons_of_mem a hxt)) hxseen
        · exact hnd.1 ((List.mem_singleton.mp hxa) ▸
            List.mem_map_of_mem IndexEntry.locator hxt)

theorem check_index_duplicates_eq_none (idx : Index) :
    check_index_duplicates idx = none ↔
      (idx.allEntries.map IndexEntry.locator).Nodup := by
  unfold check_index_duplicates
  rw [check_duplicates_go_eq_none]
  simp

/-! Claim theorems. -/

/-- Claim C1, counterexample: a full build over two raw entries whose
locators differ only in letter case persists the index —
`Model.__check_index_duplicates` compares locators with plain
(case-sensitive) string equality, so a case-insensitive collision does not
fail the build, contrary to the claim. -/
theorem buildFull_keeps_case_variant_locators :
    validate_index_full [] [caseVariantA, caseVariantB] [] [] []
      = Except.ok
        { rawIndex := [caseVariantA, caseVariantB], stageIndex := [],
          coreIndex := [], curatedIndex := [] } ∧
    pyLower caseVariantA.locator = pyLower caseVariantB.locator ∧
    caseVariantA.locator ≠ caseVariantB.locator :=
  ⟨rfl, rfl, by decide⟩

/-- Claim C1 (amended): a full build succeeds exactly when the shared
error list is empty and no two entries across the four zone collections
share a locator under exact, case-sensitive string comparison; any
verbatim duplicate makes the build fail instead of persisting the
index. -/
theorem buildFull_locator_uniqueness_exact (errors : List String)
    (raw stage core curated : List IndexEntry) (idx : Index) :
    validate_index_full errors raw stage core curated = Except.ok idx ↔
      (errors = [] ∧
       idx = { rawIndex := raw, stageIndex := stage, coreIndex := core,
               curatedIndex := curated } ∧
       (idx.allEntries.map IndexEntry.locator).Nodup) := by
  unfold validate_index_full
  cases herr : errors with
  | cons a t =>
    simp only [List.isEmpty_cons, Bool.false_eq_true, if_neg,
      not_false_eq_true]
    constructor
    · intro hfalse; cases hfalse
    · intro ⟨hfalse, _⟩; cases hfalse
  | nil =>
    simp only [List.isEmpty_nil, if_pos, true_and]
    cases hdup : check_index_duplicates
        { rawIndex := raw, stageIndex := stage, coreIndex := core,
          curatedIndex := curated } with
    | some s =>
      constructor
      · intro hfalse; cases hfalse
      · intro ⟨hidx, hnd⟩
        rw [hidx] at hnd
        rw [(check_index_duplicates_eq_none _).mpr hnd] at hdup
        cases hdup
    | none =>
      constructor
      · intro hok
        obtain rfl := (Except.ok.injEq _ _).mp hok.symm
        exact ⟨rfl, (check_index_duplicates_eq_none _).mp hdup⟩
      · intro ⟨hidx, _⟩
        rw [hidx]

/-- Claim C5: over an index obeying the case-insensitive uniqueness
invariant, `Model.get_locator` with a pattern equal to a stored entry's
locator returns exactly that entry (lower-cased exact string equality,
not prefix or regex matching), and the pattern extended with `"x"`,
matching no entry, fails with `LocatorNotFound`. -/
theorem get_locator_exact_resolution (idx : Index) (e : IndexEntry)
    (he : e ∈ idx.allEntries)
    (hnd : (idx.allEntries.map (fun x => pyLower x.locator)).Nodup)
    (hv : validLocatorPattern e.locator = true)
    (hvx : validLocatorPattern (e.locator ++ "x") = true)
    (hax : ∀ e2 ∈ idx.allEntries,
      pyLower (e.locator ++ "x") ≠ pyLower e2.locator) :
    get_locator idx e.locator = Except.ok [e] ∧
    get_locator idx (e.locator ++ "x")
      = Except.error LocatorError.locatorNotFound :=
  ⟨get_locator_ok_of_mem idx e he hnd hv,
   get_locator_not_found_of_absent idx (e.locator ++ "x") hvx hax⟩

/-- Claim C5, witness: the theorem applied to the sample index at the
Product entry. -/
theorem get_locator_exact_resolution_witness :
    get_locator sampleIndex productEntry.locator
      = Except.ok [productEntry] ∧
    get_locator sampleIndex (productEntry.locator ++ "x")
      = Except.error LocatorError.locatorNotFound :=
  get_locator_exact_resolution sampleIndex productEntry (by decide)
    (by decide) (by decide) (by decide) (by decide)

/-- Claim C6, counterexample: the sample index stores
`/stage/Sales/Product/Product`, yet `Model.get_locator` applied directly
to the slash-less pattern raises `InvalidLocatorException` instead of
resolving: the shape regex demands a leading slash, and only
`Model.lookup_entity` prepends one. -/
theorem get_locator_unslashed_pattern_rejected :
    productEntry ∈ sampleIndex.allEntries ∧
    get_locator sampleIndex "stage/Sales/Product/Product"
      = Except.error LocatorError.invalidLocator :=
  ⟨by decide, rfl⟩

/-- Claim C6 (amended): resolution through `Model.lookup_entity` accepts
a pattern with the leading slash omitted — the method prepends the slash
before delegating to `get_locator` — and returns the same entry as the
slash-prefixed form; `get_locator` itself rejects the slash-less pattern
(see the counterexample). -/
theorem lookup_entity_normalizes_leading_slash (idx : Index)
    (e : IndexEntry) (p : String)
    (he : e ∈ idx.allEntries)
    (hnd : (idx.allEntries.map (fun x => pyLower x.locator)).Nodup)
    (hv : validLocatorPattern e.locator = true)
    (hsl : pyStartsWithSlash p = false)
    (hp : "/" ++ p = e.locator)
    (hesl : pyStartsWithSlash e.locator = true) :
    lookup_entity idx p = Except.ok e ∧
    lookup_entity idx e.locator = Except.ok e := by
  have hok := get_locator_ok_of_mem idx e he hnd hv
  constructor
  · simp [lookup_entity, hsl, hp, hok]
  · simp [lookup_entity, hesl, hok]

/-- Claim C6 (amended), witness: the slash-less pattern resolves to the
Product entry through `lookup_entity`, as does the stored locator. -/
theorem lookup_entity_normalizes_leading_slash_witness :
    lookup_entity sampleIndex "stage/Sales/Product/Product"
      = Except.ok productEntry ∧
    lookup_entity sampleIndex productEntry.locator
      = Except.ok productEntry :=
  lookup_entity_normalizes_leading_slash sampleIndex productEntry
    "stage/Sales/Product/Product" (by decide) (by decide) (by decide)
    (by decide) (by decide) (by decide)

/-- Claim C7, counterexample: against the sample index holding two
entries, the pattern `"/"` yields `InvalidLocatorException`, not
`MultipleLocatorsFoundException` as claimed. -/
theorem get_locator_root_pattern_concrete :
    2 ≤ sampleIndex.allEntries.length ∧
    get_locator sampleIndex "/" = Except.error LocatorError.invalidLocator ∧
    LocatorError.invalidLocator ≠ LocatorError.multipleLocatorsFound :=
  ⟨by decide, rfl, by decide⟩

/-- Claim C7 (amended): resolving the bare pattern `"/"` raises
`InvalidLocatorException` for every index — the shape validation of
`Model.get_locator` rejects it before any entries are scanned — so
`MultipleLocatorsFound` is never reached on this input. -/
theorem get_locator_root_pattern_invalid (idx : Index) :
    get_locator idx "/" = Except.error LocatorError.invalidLocator := by
  have h : validLocatorPattern "/" = false := rfl
  simp [get_locator, h]

/-- Claim C8 (code bug), the code evaluated at the failing input: the raw
zone holds two consecutive entries whose backing files are both deleted;
the prune phase of `Model.__get_clean_index_tuple` removes the first but
skips the second — the CPython `for` cursor advances past the element
shifted into the removed slot — so the refreshed index still carries an
entry whose file no longer exists. -/
theorem prune_keeps_second_deleted_entry :
    FileSystem.alive emptyFileSystem deadEntryB.absPath = false ∧
    get_refresh_index emptyFileSystem 5
        { rawIndex := [deadEntryA, deadEntryB], stageIndex := [],
          coreIndex := [], curatedIndex := [] }
      = Except.ok
        { rawIndex := [deadEntryB], stageIndex := [],
          coreIndex := [], curatedIndex := [] } :=
  ⟨rfl, rfl⟩

/-- Claim C9 (code bug), the code evaluated at the failing input: with no
filesystem change at all between two runs of the refresh branch of
`Model.validate_index` over an index holding two stale entries, the first
run keeps the second stale entry (see the prune skip) and the second run
drops it, so the two runs persist different indexes. -/
theorem refresh_twice_differs_on_stale_index :
    validate_index_refresh emptyFileSystem 5
        { rawIndex := [deadEntryA, deadEntryB], stageIndex := [],
          coreIndex := [], curatedIndex := [] }
      = Except.ok
        { rawIndex := [deadEntryB], stageIndex := [],
          coreIndex := [], curatedIndex := [] } ∧
    validate_index_refresh emptyFileSystem 6
        { rawIndex := [deadEntryB], stageIndex := [],
          coreIndex := [], curatedIndex := [] }
      = Except.ok
        { rawIndex := [], stageIndex := [],
          coreIndex := [], curatedIndex := [] } ∧
    ({ rawIndex := [deadEntryB], stageIndex := [],
       coreIndex := [], curatedIndex := [] } : Index)
      ≠ { rawIndex := [], stageIndex := [],
          coreIndex := [], curatedIndex := [] } :=
  ⟨rfl, rfl, by decide⟩

/-- Claim C10: `Model.errors` is one class-level list shared by every
instance of the process — an error recorded through `__error_handler` on
instance `a` is visible through the `errors` attribute of any other
instance `b` — and the full-scan branch of `validate_index` on a fresh
instance whose own scan contributed nothing raises `ModelParseException`
because it tests that shared list. -/
theorem shared_error_state_fails_clean_build (a b : ModelInstance)
    (s : ProcessState) (e : String)
    (raw stage core curated : List IndexEntry) :
    e ∈ b.errorsAttr (a.error_handler s e) ∧
    validate_index_full (b.errorsAttr (a.error_handler s e))
        raw stage core curated
      = Except.error BuildError.modelParse := by
  constructor
  · simp [ModelInstance.errorsAttr, ModelInstance.error_handler]
  · have hne : (s.errors ++ [e]).isEmpty = false := by
      cases s.errors <;> rfl
    simp [validate_index_full, ModelInstance.errorsAttr,
      ModelInstance.error_handler, hne]

/-- Claim C2 (code bug), the code evaluated at the failing input:
`OrdersDb` has no override for `varchar` while its `SqlDataSource` type
defaults map `varchar → text` (as the factory's own
`get_default_type_mapping` confirms), yet `resolve_type_mapping` fails
with the unmapped-source-type error: the fallback tier calls the
nonexistent factory method `get_datasourcetype`, and the swallowed
`AttributeError` makes `_get_datasource_type_mapping` return `None` on
every input. -/
theorem resolve_type_mapping_fallback_dead :
    get_default_type_mapping [sqlSourceType] plainSource.type "varchar"
      = some "text" ∧
    resolve_type_mapping [plainSource] [sqlSourceType] [] "OrdersDb"
        "varchar" true none none none
      = Except.error ResolveError.unmappedSourceType :=
  ⟨rfl, rfl⟩

/-- Claim C3 (code bug), the code evaluated at the failing input: the
registry holds `{name: "UnicodeString", parquetType: "string"}` and the
token resolved from the override is `"string"`, but the final step leaves
it as `"string"` — `_resolve_canonical_type` calls the nonexistent factory
method `get_datatype` and the swallowed `AttributeError` makes it the
identity — while the canonicalization the spec describes
(`resolve_canonical_type_documented`) yields `"UnicodeString"`. -/
theorem resolve_canonical_type_dead :
    tme_resolve_canonical_type [unicodeStringType] "string" = "string" ∧
    resolve_canonical_type_documented [unicodeStringType] "string"
      = "UnicodeString" ∧
    resolve_type_mapping [overrideSource] [sqlSourceType]
        [unicodeStringType] "SalesDb" "varchar" true none none none
      = Except.ok
        { source_type := "varchar", target_type := "string",
          nullable := true } :=
  ⟨rfl, rfl, rfl⟩

/-- Claim C4: a data source's own override mapping takes precedence over
its DataSourceType's default for the same token: whenever the override
list's first `varchar` match targets `"string"`, resolution returns
`"string"` — regardless of a type default mapping `varchar` to `"text"` —
with the canonicalization step returning its input unchanged (see
`tme_resolve_canonical_type`). -/
theorem resolve_type_mapping_override_precedence
    (sources : List DataSource) (types : List DataSourceType)
    (dataTypes : List DataType) (srcName : String) (ds : DataSource)
    (rest : List TypeMappingEntry) (nullable : Bool)
    (charLen precision scale : Option Nat)
    (hds : get_datasource sources srcName = some ds)
    (hov : ds.dataTypeMapping.filter (fun m => m.sourceType == "varchar")
      = { sourceType := "varchar", targetType := "string" } :: rest)
    (_hdef : get_default_type_mapping types ds.type "varchar"
      = some "text") :
    resolve_type_mapping sources types dataTypes srcName "varchar"
        nullable charLen precision scale
      = Except.ok
        { source_type := "varchar", target_type := "string",
          nullable := nullable, char_len := charLen,
          precision := precision, scale := scale } := by
  have ht1 : get_datasource_target_type sources srcName "varchar"
      = "string" := by
    unfold get_datasource_target_type
    rw [hds]
    dsimp only
    rw [hov]
    rfl
  have hne : (("string" : String) == "") = false := rfl
  simp [resolve_type_mapping, hds, ht1, hne, tme_resolve_canonical_type]

/-- Claim C4, witness: the theorem applied to the one-source registry
where `SalesDb` overrides `varchar → string` and its `SqlDataSource` type
defaults `varchar → text`. -/
theorem resolve_type_mapping_override_precedence_witness :
    resolve_type_mapping [overrideSource] [sqlSourceType] [] "SalesDb"
        "varchar" true none none none
      = Except.ok
        { source_type := "varchar", target_type := "string",
          nullable := true } :=
  resolve_type_mapping_override_precedence [overrideSource]
    [sqlSourceType] [] "SalesDb" overrideSource [] true none none none
    rfl rfl rfl

end DataM8
